import Mathlib

/-!
Shallow embedding of `retryhttp` (src/retryhttp/__init__.py): classifier
predicates, wait selectors, the context-aware wait dispatcher and the
retry-predicate composition of `retry_http_errors`, together with proofs of
the specified properties.

Modelling conventions:
- Durations are rationals (`Rat`), standing for the Python floats; no float
  rounding is relevant to the properties below.
- An exception is either an `httpx.HTTPStatusError` carrying a response, or a
  non-status exception identified by its concrete class; `isinstance` checks
  use the httpx exception class hierarchy, reproduced below.
- A call that lets a Python exception escape (for retryhttp, only the
  `float(...)` conversion in `wait_from_header.__call__` can) is modelled as
  returning `none`; a normal return of `x` is `some x`.
-/

namespace RetryHttp

/-- The httpx exception classes that the library's type sets and isinstance
checks can mention (httpx._exceptions hierarchy). -/
inductive ExcCls where
  | HTTPError
  | RequestError
  | TransportError
  | TimeoutException
  | ConnectTimeout
  | ReadTimeout
  | WriteTimeout
  | PoolTimeout
  | NetworkError
  | ConnectError
  | ReadError
  | WriteError
  | CloseError
  | HTTPStatusError
deriving DecidableEq, Fintype

/-- Ancestors (the class itself included) in the httpx exception hierarchy:
TimeoutException and NetworkError both derive TransportError; the four
timeouts derive TimeoutException; Connect/Read/Write/CloseError derive
NetworkError; HTTPStatusError derives HTTPError directly. -/
def ExcCls.ancestors : ExcCls → List ExcCls
  | .HTTPError => [.HTTPError]
  | .RequestError => [.RequestError, .HTTPError]
  | .TransportError => [.TransportError, .RequestError, .HTTPError]
  | .TimeoutException => [.TimeoutException, .TransportError, .RequestError, .HTTPError]
  | .ConnectTimeout =>
      [.ConnectTimeout, .TimeoutException, .TransportError, .RequestError, .HTTPError]
  | .ReadTimeout =>
      [.ReadTimeout, .TimeoutException, .TransportError, .RequestError, .HTTPError]
  | .WriteTimeout =>
      [.WriteTimeout, .TimeoutException, .TransportError, .RequestError, .HTTPError]
  | .PoolTimeout =>
      [.PoolTimeout, .TimeoutException, .TransportError, .RequestError, .HTTPError]
  | .NetworkError => [.NetworkError, .TransportError, .RequestError, .HTTPError]
  | .ConnectError =>
      [.ConnectError, .NetworkError, .TransportError, .RequestError, .HTTPError]
  | .ReadError => [.ReadError, .NetworkError, .TransportError, .RequestError, .HTTPError]
  | .WriteError => [.WriteError, .NetworkError, .TransportError, .RequestError, .HTTPError]
  | .CloseError => [.CloseError, .NetworkError, .TransportError, .RequestError, .HTTPError]
  | .HTTPStatusError => [.HTTPStatusError, .HTTPError]

/-- Python subclass test between exception classes. -/
def ExcCls.subclassOf (c d : ExcCls) : Bool := c.ancestors.contains d

/-- An httpx response, as far as retryhttp inspects it: a status code and
headers (httpx header lookup is case-insensitive). -/
structure Response where
  status_code : Int
  headers : List (String × String)
deriving DecidableEq

/-- ASCII lower-casing of one character (header names are ASCII). -/
def asciiLower (c : Char) : Char :=
  if 65 ≤ c.toNat && c.toNat ≤ 90 then Char.ofNat (c.toNat + 32) else c

/-- ASCII lower-casing of a header name, as a character list. -/
def lowerKey (s : String) : List Char := s.toList.map asciiLower

/-- httpx.Headers.get with no default: case-insensitive lookup. -/
def headersGet (headers : List (String × String)) (key : String) : Option String :=
  (headers.find? (fun p => lowerKey p.1 == lowerKey key)).map (fun p => p.2)

/-- An exception value: an HTTPStatusError with its response, or a non-status
exception of some concrete class. -/
inductive Exc where
  | httpStatusError (response : Response)
  | exc (cls : ExcCls)
deriving DecidableEq

/-- The concrete class of an exception value. -/
def Exc.cls : Exc → ExcCls
  | .httpStatusError _ => .HTTPStatusError
  | .exc c => c

/-- Python isinstance(exc, tuple_of_classes), for a possibly-None exception:
isinstance(None, t) is False. -/
def isinstance (e : Option Exc) (classes : List ExcCls) : Bool :=
  match e with
  | some ex => classes.any (fun c => ex.cls.subclassOf c)
  | none => false

/-- The outcome of an attempt (a concurrent.futures Future): a success or a
captured exception. -/
inductive Outcome where
  | success
  | failure (e : Exc)
deriving DecidableEq

/-- Future.exception(): None on success, the captured exception otherwise. -/
def Outcome.exception : Outcome → Option Exc
  | .success => none
  | .failure e => some e

/-- tenacity.RetryCallState, restricted to the fields retryhttp reads:
the outcome (None before the first attempt completes) and the attempt
number (read by wait strategies). -/
structure RetryCallState where
  outcome : Option Outcome
  attempt_number : Nat

/-- A tenacity wait strategy (wait_base): maps the call state to a delay. -/
abbrev Wait := RetryCallState → Rat

/-- A status-code configuration: Python Union[Sequence[int], int]. -/
inductive IntOrSeq where
  | single (n : Int)
  | seq (l : List Int)
deriving DecidableEq

/-- The isinstance(status_codes, int) normalization at the top of
_is_server_error: a bare int becomes a one-element list. -/
def IntOrSeq.normalize : IntOrSeq → List Int
  | .single n => [n]
  | .seq l => l

/-- RETRY_SERVER_ERROR_CODES: (500, 502, 504, 503) in source order. -/
def RETRY_SERVER_ERROR_CODES : List Int := [500, 502, 504, 503]

/-- RETRY_NETWORK_ERRORS: ConnectError, ReadError, WriteError (CloseError is
deliberately excluded). -/
def RETRY_NETWORK_ERRORS : List ExcCls := [.ConnectError, .ReadError, .WriteError]

/-- RETRY_NETWORK_TIMEOUTS: the single class TimeoutException, which subsumes
all the concrete timeout classes. -/
def RETRY_NETWORK_TIMEOUTS : List ExcCls := [.TimeoutException]

/-- Python float(str), restricted to signed decimal literals (an optional
sign, digits, an optional fractional part). This is the fragment relevant to
header values; inputs outside it (such as "not-a-number") fail, which in
Python is a ValueError. -/
def natOfDigits (cs : List Char) : Nat :=
  cs.foldl (fun a c => a * 10 + (c.toNat - 48)) 0

/-- Unsigned part of the decimal-literal model of Python float(str). -/
def pyFloatUnsigned (cs : List Char) : Option Rat :=
  match cs.splitOn '.' with
  | [intPart] =>
      if !intPart.isEmpty && intPart.all Char.isDigit then
        some (natOfDigits intPart : Rat)
      else none
  | [intPart, fracPart] =>
      if (!intPart.isEmpty || !fracPart.isEmpty) && intPart.all Char.isDigit
          && fracPart.all Char.isDigit then
        some (mkRat (natOfDigits intPart * 10 ^ fracPart.length + natOfDigits fracPart)
          (10 ^ fracPart.length))
      else none
  | _ => none

/-- Model of Python float(str) on decimal literals; none models ValueError. -/
def pyFloat (s : String) : Option Rat :=
  match s.toList with
  | [] => none
  | c :: rest =>
      if c = '-' then (pyFloatUnsigned rest).map (fun q => -q)
      else if c = '+' then pyFloatUnsigned rest
      else pyFloatUnsigned (c :: rest)

/-- _is_rate_limited: true iff the exception is an HTTPStatusError whose
status code is 429 (httpx.codes.TOO_MANY_REQUESTS). -/
def is_rate_limited (exc : Option Exc) : Bool :=
  match exc with
  | some (.httpStatusError resp) => resp.status_code == 429
  | _ => false

/-- _is_server_error: normalize a bare int to a one-element list, then true
iff the exception is an HTTPStatusError whose status code is in the list. -/
def is_server_error (exc : Option Exc) (status_codes : IntOrSeq) : Bool :=
  match exc with
  | some (.httpStatusError resp) => status_codes.normalize.contains resp.status_code
  | _ => false

/-- retry_if_rate_limited.__call__. -/
def retry_if_rate_limited.call (rs : RetryCallState) : Bool :=
  match rs.outcome with
  | some o => is_rate_limited o.exception
  | none => false

/-- retry_if_server_error.__init__: None defaults to RETRY_SERVER_ERROR_CODES. -/
def retry_if_server_error.init (server_error_codes : Option IntOrSeq) : IntOrSeq :=
  server_error_codes.getD (IntOrSeq.seq RETRY_SERVER_ERROR_CODES)

/-- retry_if_server_error.__call__. -/
def retry_if_server_error.call (server_error_codes : IntOrSeq)
    (rs : RetryCallState) : Bool :=
  match rs.outcome with
  | some o => is_server_error o.exception server_error_codes
  | none => false

/-- retry_if_network_error.__init__: None defaults to RETRY_NETWORK_ERRORS. -/
def retry_if_network_error.init (errors : Option (List ExcCls)) : List ExcCls :=
  errors.getD RETRY_NETWORK_ERRORS

/-- retry_if_network_error.__call__. -/
def retry_if_network_error.call (errors : List ExcCls) (rs : RetryCallState) : Bool :=
  match rs.outcome with
  | some o => isinstance o.exception errors
  | none => false

/-- retry_if_network_timeout.__init__: None defaults to RETRY_NETWORK_TIMEOUTS. -/
def retry_if_network_timeout.init (timeouts : Option (List ExcCls)) : List ExcCls :=
  timeouts.getD RETRY_NETWORK_TIMEOUTS

/-- retry_if_network_timeout.__call__. -/
def retry_if_network_timeout.call (timeouts : List ExcCls) (rs : RetryCallState) : Bool :=
  match rs.outcome with
  | some o => isinstance o.exception timeouts
  | none => false

/-- wait_from_header.__call__: if the outcome is an HTTPStatusError, return
float(headers.get(header, fallback(rs))); otherwise return fallback(rs).
When the header is present, float is applied to its string value, so a value
that does not parse raises ValueError (modelled as none); when the header is
absent, float is applied to the fallback's float, which is the identity. -/
def wait_from_header.call (header : String) (fallback : Wait)
    (rs : RetryCallState) : Option Rat :=
  match rs.outcome with
  | some o =>
      match o.exception with
      | some (.httpStatusError resp) =>
          match headersGet resp.headers header with
          | some v => pyFloat v
          | none => some (fallback rs)
      | _ => some (fallback rs)
  | none => some (fallback rs)

/-- wait_retry_after_header: wait_from_header specialised to "Retry-After". -/
def wait_retry_after_header.call (fallback : Wait) (rs : RetryCallState) : Option Rat :=
  wait_from_header.call "Retry-After" fallback rs

/-- The state of a wait_context_aware instance after __init__ (category wait
strategies and the three category membership sets, already defaulted). -/
structure WaitContextAware where
  wait_server_errors : Wait
  wait_network_errors : Wait
  wait_network_timeouts : Wait
  wait_rate_limited : Wait
  server_error_codes : IntOrSeq
  network_errors : List ExcCls
  network_timeouts : List ExcCls

/-- wait_context_aware.__init__: None membership sets default to the module
constants. -/
def wait_context_aware.init (ws wn wt wr : Wait)
    (server_error_codes : Option IntOrSeq)
    (network_errors network_timeouts : Option (List ExcCls)) : WaitContextAware :=
  { wait_server_errors := ws
    wait_network_errors := wn
    wait_network_timeouts := wt
    wait_rate_limited := wr
    server_error_codes := server_error_codes.getD (IntOrSeq.seq RETRY_SERVER_ERROR_CODES)
    network_errors := network_errors.getD RETRY_NETWORK_ERRORS
    network_timeouts := network_timeouts.getD RETRY_NETWORK_TIMEOUTS }

/-- wait_context_aware.__call__: fixed priority order server error, network
error, network timeout, rate limited; 0 when nothing matches or there is no
outcome. -/
def WaitContextAware.call (w : WaitContextAware) (rs : RetryCallState) : Rat :=
  match rs.outcome with
  | some o =>
      if is_server_error o.exception w.server_error_codes then w.wait_server_errors rs
      else if isinstance o.exception w.network_errors then w.wait_network_errors rs
      else if isinstance o.exception w.network_timeouts then w.wait_network_timeouts rs
      else if is_rate_limited o.exception then w.wait_rate_limited rs
      else 0
  | none => 0

/-- State-passing form of wait_context_aware.__call__: the method body
contains no assignment to self, so the post-state is the pre-state
reassembled field by field. -/
def WaitContextAware.callS (w : WaitContextAware) (rs : RetryCallState) :
    Rat × WaitContextAware :=
  (w.call rs,
   { wait_server_errors := w.wait_server_errors
     wait_network_errors := w.wait_network_errors
     wait_network_timeouts := w.wait_network_timeouts
     wait_rate_limited := w.wait_rate_limited
     server_error_codes := w.server_error_codes
     network_errors := w.network_errors
     network_timeouts := w.network_timeouts })

/-- State-passing form of retry_if_server_error.__call__: its only state is
the server_error_codes field, which the body never assigns. -/
def retry_if_server_error.callS (server_error_codes : IntOrSeq)
    (rs : RetryCallState) : Bool × IntOrSeq :=
  (retry_if_server_error.call server_error_codes rs, server_error_codes)

/-- tenacity.retry_any over a list of retry strategies: OR of the members. -/
def retry_any (strategies : List (RetryCallState → Bool)) (rs : RetryCallState) : Bool :=
  strategies.any (fun s => s rs)

/-- The keyword configuration of retry_http_errors that feeds the composed
retry predicate (toggles and membership sets; None means default). -/
structure RetryHttpErrorsCfg where
  retry_server_errors : Bool
  retry_network_errors : Bool
  retry_network_timeouts : Bool
  retry_rate_limited : Bool
  server_error_codes : Option IntOrSeq
  network_errors : Option (List ExcCls)
  network_timeouts : Option (List ExcCls)

/-- The retry_strategies list built in retry_http_errors: one classifier per
enabled toggle, in source order, each over the defaulted membership set. -/
def retry_http_errors.strategies (c : RetryHttpErrorsCfg) :
    List (RetryCallState → Bool) :=
  (if c.retry_server_errors then
    [retry_if_server_error.call (retry_if_server_error.init c.server_error_codes)]
   else [])
  ++ (if c.retry_network_errors then
    [retry_if_network_error.call (retry_if_network_error.init c.network_errors)]
   else [])
  ++ (if c.retry_network_timeouts then
    [retry_if_network_timeout.call (retry_if_network_timeout.init c.network_timeouts)]
   else [])
  ++ (if c.retry_rate_limited then [retry_if_rate_limited.call] else [])

/-- The composed retry predicate: dkw.get("retry") or retry_any(*strategies). -/
def retry_http_errors.retry (c : RetryHttpErrorsCfg)
    (override : Option (RetryCallState → Bool)) : RetryCallState → Bool :=
  override.getD (retry_any (retry_http_errors.strategies c))

/-! Concrete fixtures used by witnesses and counterexamples. -/

/-- A 429 response whose Retry-After header value does not parse as a number. -/
def respNaN : Response := ⟨429, [("Retry-After", "not-a-number")]⟩

/-- Call state for a failure carrying respNaN. -/
def rsNaN : RetryCallState := ⟨some (.failure (.httpStatusError respNaN)), 1⟩

/-- A 429 response whose Retry-After header value is the negative number -5. -/
def respNeg : Response := ⟨429, [("Retry-After", "-5")]⟩

/-- Call state for a failure carrying respNeg. -/
def rsNeg : RetryCallState := ⟨some (.failure (.httpStatusError respNeg)), 1⟩

/-- A 429 response whose Retry-After header value is the number 5. -/
def respFive : Response := ⟨429, [("Retry-After", "5")]⟩

/-- Call state for a failure carrying respFive. -/
def rsFive : RetryCallState := ⟨some (.failure (.httpStatusError respFive)), 1⟩

/-- A 503 response with no headers. -/
def resp503 : Response := ⟨503, []⟩

/-- Call state for a failure carrying resp503. -/
def rs503 : RetryCallState := ⟨some (.failure (.httpStatusError resp503)), 1⟩

/-- A 501 response with no headers (5xx but outside the default code set). -/
def resp501 : Response := ⟨501, []⟩

/-- Call state for a failure carrying resp501. -/
def rs501 : RetryCallState := ⟨some (.failure (.httpStatusError resp501)), 1⟩

/-- A 429 response with no headers. -/
def resp429 : Response := ⟨429, []⟩

/-- Call state for a failure carrying resp429. -/
def rs429 : RetryCallState := ⟨some (.failure (.httpStatusError resp429)), 1⟩

/-- A 500 response with no headers. -/
def resp500 : Response := ⟨500, []⟩

/-- Call state for a failure carrying resp500. -/
def rs500 : RetryCallState := ⟨some (.failure (.httpStatusError resp500)), 1⟩

/-- Call state for an httpx.ConnectError failure. -/
def rsConnect : RetryCallState := ⟨some (.failure (.exc .ConnectError)), 1⟩

/-- Call state with no outcome recorded yet. -/
def rsNoOutcome : RetryCallState := ⟨none, 1⟩

/-- A deliberately misconfigured dispatcher whose server-error code set and
network-error class set both match an HTTPStatusError with code 500, with
distinct constant category strategies so the chosen branch is visible. -/
def wMis : WaitContextAware :=
  ⟨fun _ => 1, fun _ => 2, fun _ => 3, fun _ => 4,
   .seq [500], [.HTTPStatusError], [.TimeoutException]⟩

/-- The retry_http_errors keyword set with retry_network_errors disabled, the
network-error class set free, and everything else at its default. -/
def cfgNoNetwork (ne : Option (List ExcCls)) : RetryHttpErrorsCfg :=
  ⟨true, false, true, true, none, ne, none⟩

/-! Helper lemmas. -/

/-- Evaluating the header-number model on the literal "5". -/
theorem pyFloat_five : pyFloat "5" = some 5 := by decide

/-- C1 counterexample: with the configured header present but carrying
"not-a-number", wait_from_header.__call__ applies float() to that string and
the ValueError escapes (modelled as none); in particular the call does not
return the fallback value 7. -/
theorem wait_from_header_unparsable_cex :
    wait_from_header.call "Retry-After" (fun _ => 7) rsNaN = none ∧
    wait_from_header.call "Retry-After" (fun _ => 7) rsNaN ≠ some 7 := by
  decide

/-- C1 (amended): for every status-carrying HTTP failure whose response
carries the configured header with a value that does not parse as a number,
wait_from_header.__call__ raises — the parse error propagates (modelled as
none) instead of the fallback value being returned; the fallback is used only
when the header is absent or the failure is not status-carrying. -/
theorem wait_from_header_unparsable_raises (header : String) (fallback : Wait)
    (rs : RetryCallState) (resp : Response) (v : String)
    (hout : rs.outcome = some (.failure (.httpStatusError resp)))
    (hhdr : headersGet resp.headers header = some v)
    (hparse : pyFloat v = none) :
    wait_from_header.call header fallback rs = none := by
  simp [wait_from_header.call, hout, Outcome.exception, hhdr, hparse]

/-- C1 witness: the amended statement at the concrete "not-a-number" state. -/
theorem wait_from_header_unparsable_raises_witness :
    wait_from_header.call "Retry-After" (fun _ => 7) rsNaN = none :=
  wait_from_header_unparsable_raises "Retry-After" (fun _ => 7) rsNaN respNaN
    "not-a-number" rfl (by decide) (by decide)

/-- C3: wait_from_header with the configured header valued "5" returns
exactly 5; with a status-carrying failure lacking the header it returns the
fallback value; with a failure that is not a status-carrying HTTP error it
also returns the fallback value. -/
theorem wait_from_header_spec (header : String) (fallback : Wait)
    (rs : RetryCallState) :
    (∀ resp, rs.outcome = some (.failure (.httpStatusError resp)) →
      headersGet resp.headers header = some "5" →
      wait_from_header.call header fallback rs = some 5) ∧
    (∀ resp, rs.outcome = some (.failure (.httpStatusError resp)) →
      headersGet resp.headers header = none →
      wait_from_header.call header fallback rs = some (fallback rs)) ∧
    (∀ e, rs.outcome = some (.failure e) →
      (∀ resp, e ≠ .httpStatusError resp) →
      wait_from_header.call header fallback rs = some (fallback rs)) := by
  refine ⟨?_, ?_, ?_⟩
  · intro resp hout hhdr
    simp [wait_from_header.call, hout, Outcome.exception, hhdr, pyFloat_five]
  · intro resp hout hhdr
    simp [wait_from_header.call, hout, Outcome.exception, hhdr]
  · intro e hout hne
    cases e with
    | httpStatusError resp => exact absurd rfl (hne resp)
    | exc c => simp [wait_from_header.call, hout, Outcome.exception]

/-- C3 witness: the three cases at concrete states — header "5" gives 5,
header absent gives the constant fallback 7, a ConnectError gives 7. -/
theorem wait_from_header_spec_witness :
    wait_from_header.call "Retry-After" (fun _ => 7) rsFive = some 5 ∧
    wait_from_header.call "Retry-After" (fun _ => 7) rs503 = some 7 ∧
    wait_from_header.call "Retry-After" (fun _ => 7) rsConnect = some 7 :=
  ⟨(wait_from_header_spec "Retry-After" (fun _ => 7) rsFive).1 respFive rfl
      (by decide),
   (wait_from_header_spec "Retry-After" (fun _ => 7) rs503).2.1 resp503 rfl
      (by decide),
   (wait_from_header_spec "Retry-After" (fun _ => 7) rsConnect).2.2
      (.exc .ConnectError) rfl (fun resp h => Exc.noConfusion h)⟩

/-- C10: when the call state has no outcome yet, every classifier returns
false, the context-aware dispatcher returns 0, and wait_from_header returns
the fallback value, for every configuration. -/
theorem none_outcome_defaults (rs : RetryCallState) (h : rs.outcome = none) :
    retry_if_rate_limited.call rs = false ∧
    (∀ codes, retry_if_server_error.call codes rs = false) ∧
    (∀ errors, retry_if_network_error.call errors rs = false) ∧
    (∀ timeouts, retry_if_network_timeout.call timeouts rs = false) ∧
    (∀ w : WaitContextAware, w.call rs = 0) ∧
    (∀ header fallback, wait_from_header.call header fallback rs
      = some (fallback rs)) := by
  refine ⟨?_, ?_, ?_, ?_, ?_, ?_⟩ <;>
    simp [retry_if_rate_limited.call, retry_if_server_error.call,
      retry_if_network_error.call, retry_if_network_timeout.call,
      WaitContextAware.call, wait_from_header.call, h]

/-- C10 witness: the no-outcome state with concrete configurations. -/
theorem none_outcome_defaults_witness :
    retry_if_rate_limited.call rsNoOutcome = false ∧
    WaitContextAware.call wMis rsNoOutcome = 0 ∧
    wait_from_header.call "Retry-After" (fun _ => 3) rsNoOutcome = some 3 :=
  ⟨(none_outcome_defaults rsNoOutcome rfl).1,
   (none_outcome_defaults rsNoOutcome rfl).2.2.2.2.1 wMis,
   (none_outcome_defaults rsNoOutcome rfl).2.2.2.2.2 "Retry-After" (fun _ => 3)⟩

/-- C2 counterexample: with the configured header valued "-5" and a fallback
that is non-negative everywhere, wait_from_header returns -5, a negative
duration, so the header-derived value is used even though it is negative. -/
theorem wait_selectors_nonneg_cex :
    wait_from_header.call "Retry-After" (fun _ => 1) rsNeg = some (-5) ∧
    ((-5 : Rat) < 0) := by
  decide

/-- C2 (amended): wait_from_header returns whatever number the header parses
to, negative values included, so its result is only non-negative under the
assumption that every parsable header value in reach is non-negative and the
fallback is non-negative; under those assumptions every value it returns is
non-negative, and wait_context_aware returns a non-negative duration whenever
the four category strategies are non-negative at the current state (returning
0 when no category matches). -/
theorem wait_selectors_nonneg (header : String) (fallback : Wait)
    (w : WaitContextAware) (rs : RetryCallState)
    (hfb : ∀ s, 0 ≤ fallback s)
    (hhdr : ∀ resp v q, rs.outcome = some (.failure (.httpStatusError resp)) →
      headersGet resp.headers header = some v → pyFloat v = some q → 0 ≤ q)
    (hws : 0 ≤ w.wait_server_errors rs) (hwn : 0 ≤ w.wait_network_errors rs)
    (hwt : 0 ≤ w.wait_network_timeouts rs) (hwr : 0 ≤ w.wait_rate_limited rs) :
    (∀ q, wait_from_header.call header fallback rs = some q → 0 ≤ q) ∧
    0 ≤ w.call rs := by
  constructor
  · intro q hq
    cases hout : rs.outcome with
    | none =>
        simp [wait_from_header.call, hout] at hq
        exact hq ▸ hfb rs
    | some o =>
        cases o with
        | success =>
            simp [wait_from_header.call, hout, Outcome.exception] at hq
            exact hq ▸ hfb rs
        | failure e =>
            cases e with
            | httpStatusError resp =>
                cases hh : headersGet resp.headers header with
                | none =>
                    simp [wait_from_header.call, hout, Outcome.exception, hh] at hq
                    exact hq ▸ hfb rs
                | some v =>
                    simp [wait_from_header.call, hout, Outcome.exception, hh] at hq
                    exact hhdr resp v q hout hh hq
            | exc c =>
                simp [wait_from_header.call, hout, Outcome.exception] at hq
                exact hq ▸ hfb rs
  · cases hout : rs.outcome with
    | none => simp [WaitContextAware.call, hout]
    | some o =>
        simp only [WaitContextAware.call, hout]
        split
        · exact hws
        · split
          · exact hwn
          · split
            · exact hwt
            · split
              · exact hwr
              · exact le_refl 0

/-- C2 witness: the amended statement at the header-value-5 state with
constant strategies. -/
theorem wait_selectors_nonneg_witness :
    (∀ q, wait_from_header.call "Retry-After" (fun _ => 1) rsFive = some q →
      0 ≤ q) ∧
    0 ≤ WaitContextAware.call wMis rsFive :=
  wait_selectors_nonneg "Retry-After" (fun _ => 1) wMis rsFive
    (fun _ => (by decide : (0 : Rat) ≤ 1))
    (by
      intro resp v q h1 h2 h3
      have hr : respFive = resp := by
        have h1x : some (Outcome.failure (Exc.httpStatusError respFive))
            = some (.failure (.httpStatusError resp)) := h1
        injection h1x with h1y
        injection h1y with h1z
        injection h1z
      subst hr
      rw [show headersGet respFive.headers "Retry-After" = some "5" by decide]
        at h2
      injection h2 with h2v
      subst h2v
      rw [pyFloat_five] at h3
      injection h3 with h3q
      subst h3q
      decide)
    (by decide) (by decide) (by decide) (by decide)

/-- C4: the dispatcher evaluates categories in the fixed priority order
server error, network error, network timeout, rate limited, returning the
matching category strategy's value — in particular a server-error match wins
regardless of the other categories — and returns 0 when no category matches
or when there is no outcome. -/
theorem wait_context_aware_priority (w : WaitContextAware)
    (rs : RetryCallState) :
    (∀ o, rs.outcome = some o →
      (is_server_error o.exception w.server_error_codes = true →
        w.call rs = w.wait_server_errors rs) ∧
      (is_server_error o.exception w.server_error_codes = false →
       isinstance o.exception w.network_errors = true →
        w.call rs = w.wait_network_errors rs) ∧
      (is_server_error o.exception w.server_error_codes = false →
       isinstance o.exception w.network_errors = false →
       isinstance o.exception w.network_timeouts = true →
        w.call rs = w.wait_network_timeouts rs) ∧
      (is_server_error o.exception w.server_error_codes = false →
       isinstance o.exception w.network_errors = false →
       isinstance o.exception w.network_timeouts = false →
       is_rate_limited o.exception = true →
        w.call rs = w.wait_rate_limited rs) ∧
      (is_server_error o.exception w.server_error_codes = false →
       isinstance o.exception w.network_errors = false →
       isinstance o.exception w.network_timeouts = false →
       is_rate_limited o.exception = false →
        w.call rs = 0)) ∧
    (rs.outcome = none → w.call rs = 0) := by
  constructor
  · intro o ho
    refine ⟨?_, ?_, ?_, ?_, ?_⟩ <;> intro h1 <;>
      try intro h2 <;> try intro h3 <;> try intro h4
    all_goals simp_all [WaitContextAware.call]
  · intro h
    simp [WaitContextAware.call, h]

/-- C4 witness: a misconfigured instance whose server-error code set and
network-error class set both match a 500 failure resolves to the
server-error strategy's value 1, per priority order. -/
theorem wait_context_aware_priority_witness :
    is_server_error (some (Exc.httpStatusError resp500))
      wMis.server_error_codes = true ∧
    isinstance (some (Exc.httpStatusError resp500)) wMis.network_errors = true ∧
    WaitContextAware.call wMis rs500 = 1 :=
  ⟨by decide, by decide,
   ((wait_context_aware_priority wMis rs500).1
      (.failure (.httpStatusError resp500)) rfl).1 (by decide)⟩

/-- C5: the server-error classifier is true iff the failure is a
status-carrying HTTP error whose status code is in the configured set; the
default set contains exactly 500, 502, 503 and 504; a bare code normalizes to
a one-element set; and a status outside the configured set is rejected even
when it lies in the 500 to 599 range. -/
theorem retry_if_server_error_spec (codes : Option IntOrSeq)
    (rs : RetryCallState) :
    (retry_if_server_error.call (retry_if_server_error.init codes) rs = true ↔
      ∃ resp, rs.outcome = some (.failure (.httpStatusError resp)) ∧
        (retry_if_server_error.init codes).normalize.contains resp.status_code
          = true) ∧
    (∀ n : Int,
      (retry_if_server_error.init none).normalize.contains n = true ↔
        n = 500 ∨ n = 502 ∨ n = 503 ∨ n = 504) ∧
    (∀ n : Int, (IntOrSeq.single n).normalize = [n]) ∧
    (∀ resp, rs.outcome = some (.failure (.httpStatusError resp)) →
      (retry_if_server_error.init codes).normalize.contains resp.status_code
        = false →
      retry_if_server_error.call (retry_if_server_error.init codes) rs
        = false) := by
  refine ⟨?_, ?_, fun n => rfl, ?_⟩
  · cases hout : rs.outcome with
    | none => simp [retry_if_server_error.call, hout]
    | some o =>
        cases o with
        | success =>
            simp [retry_if_server_error.call, is_server_error, hout,
              Outcome.exception]
        | failure e =>
            cases e with
            | httpStatusError resp =>
                simp [retry_if_server_error.call, is_server_error, hout,
                  Outcome.exception]
            | exc c =>
                simp [retry_if_server_error.call, is_server_error, hout,
                  Outcome.exception]
  · intro n
    simp only [retry_if_server_error.init, Option.getD, IntOrSeq.normalize,
      RETRY_SERVER_ERROR_CODES, List.contains, List.elem_eq_mem,
      List.mem_cons, List.not_mem_nil, or_false, decide_eq_true_eq]
    tauto
  · intro resp hout hc
    simp only [List.contains, List.elem_eq_mem, decide_eq_false_iff_not] at hc
    simp [retry_if_server_error.call, is_server_error, hout,
      Outcome.exception, hc]

/-- C5 witness: under the default set, a 503 failure is classified as a
server error and a 501 failure is not, although 501 lies in the 5xx range. -/
theorem retry_if_server_error_spec_witness :
    retry_if_server_error.call (retry_if_server_error.init none) rs503
      = true ∧
    retry_if_server_error.call (retry_if_server_error.init none) rs501
      = false :=
  ⟨(retry_if_server_error_spec none rs503).1.mpr ⟨resp503, rfl, by decide⟩,
   (retry_if_server_error_spec none rs501).2.2.2 resp501 rfl (by decide)⟩

/-- C6: the rate-limited classifier is true exactly on status-carrying
failures with status 429, and for such a failure none of the other three
classifiers is true under the default configurations. -/
theorem rate_limited_exclusive (rs : RetryCallState) :
    (retry_if_rate_limited.call rs = true ↔
      ∃ resp, rs.outcome = some (.failure (.httpStatusError resp)) ∧
        resp.status_code = 429) ∧
    (∀ resp, rs.outcome = some (.failure (.httpStatusError resp)) →
      resp.status_code = 429 →
      retry_if_server_error.call (retry_if_server_error.init none) rs
        = false ∧
      retry_if_network_error.call (retry_if_network_error.init none) rs
        = false ∧
      retry_if_network_timeout.call (retry_if_network_timeout.init none) rs
        = false) := by
  constructor
  · cases hout : rs.outcome with
    | none => simp [retry_if_rate_limited.call, hout]
    | some o =>
        cases o with
        | success =>
            simp [retry_if_rate_limited.call, is_rate_limited, hout,
              Outcome.exception]
        | failure e =>
            cases e with
            | httpStatusError resp =>
                simp [retry_if_rate_limited.call, is_rate_limited, hout,
                  Outcome.exception]
            | exc c =>
                simp [retry_if_rate_limited.call, is_rate_limited, hout,
                  Outcome.exception]
  · intro resp hout h429
    refine ⟨?_, ?_, ?_⟩
    · simp [retry_if_server_error.call, is_server_error, hout,
        Outcome.exception, retry_if_server_error.init, IntOrSeq.normalize,
        RETRY_SERVER_ERROR_CODES, h429]
    · simp [retry_if_network_error.call, isinstance, hout,
        Outcome.exception, Exc.cls, retry_if_network_error.init,
        RETRY_NETWORK_ERRORS, ExcCls.subclassOf, ExcCls.ancestors]
    · simp [retry_if_network_timeout.call, isinstance, hout,
        Outcome.exception, Exc.cls, retry_if_network_timeout.init,
        RETRY_NETWORK_TIMEOUTS, ExcCls.subclassOf, ExcCls.ancestors]

/-- C6 witness: the concrete 429 failure is rate-limited and matches none of
the other default classifiers. -/
theorem rate_limited_exclusive_witness :
    retry_if_rate_limited.call rs429 = true ∧
    retry_if_server_error.call (retry_if_server_error.init none) rs429
      = false ∧
    retry_if_network_error.call (retry_if_network_error.init none) rs429
      = false ∧
    retry_if_network_timeout.call (retry_if_network_timeout.init none) rs429
      = false :=
  ⟨(rate_limited_exclusive rs429).1.mpr ⟨resp429, rfl, rfl⟩,
   (rate_limited_exclusive rs429).2 resp429 rfl rfl⟩

/-- C7: with retry_network_errors disabled and the other toggles and sets at
their defaults, the composed retry predicate is false on every plain network
error failure, whatever the network-error class set was configured to,
because the network classifier is simply absent from the OR. -/
theorem disabled_network_not_retried (ne : Option (List ExcCls))
    (rs : RetryCallState) (c : ExcCls)
    (hout : rs.outcome = some (.failure (.exc c)))
    (hc : isinstance (some (.exc c)) RETRY_NETWORK_ERRORS = true) :
    retry_http_errors.retry (cfgNoNetwork ne) none rs = false := by
  have hall : ∀ d : ExcCls, isinstance (some (.exc d)) RETRY_NETWORK_ERRORS
      = true → ExcCls.subclassOf d .TimeoutException = false := by decide
  have hto : ExcCls.subclassOf c .TimeoutException = false := hall c hc
  simp [retry_http_errors.retry, retry_http_errors.strategies, cfgNoNetwork,
    retry_any, hout, retry_if_server_error.call, retry_if_network_timeout.call,
    retry_if_rate_limited.call, is_server_error, is_rate_limited, isinstance,
    Outcome.exception, Exc.cls, retry_if_network_timeout.init,
    RETRY_NETWORK_TIMEOUTS, hto]

/-- C7 witness: a ConnectError failure is not retried when the network-error
toggle is off, even with the network-error class set explicitly configured to
contain ConnectError. -/
theorem disabled_network_not_retried_witness :
    retry_http_errors.retry (cfgNoNetwork (some [ExcCls.ConnectError])) none
      rsConnect = false :=
  disabled_network_not_retried (some [ExcCls.ConnectError]) rsConnect
    .ConnectError rfl (by decide)

/-- C8: in state-passing form, the dispatcher and the server-error classifier
return their configuration unchanged, so a second call with the same outcome
and configuration yields the same result as the first. -/
theorem classifier_dispatcher_stateless (w : WaitContextAware)
    (codes : IntOrSeq) (rs : RetryCallState) :
    ((w.callS rs).2 = w ∧ ((w.callS rs).2.callS rs).1 = (w.callS rs).1) ∧
    ((retry_if_server_error.callS codes rs).2 = codes ∧
      (retry_if_server_error.callS (retry_if_server_error.callS codes rs).2
        rs).1 = (retry_if_server_error.callS codes rs).1) :=
  ⟨⟨rfl, rfl⟩, ⟨rfl, rfl⟩⟩

/-- C9: with all four category toggles off and no retry override, the
strategy list is empty and the composed predicate, the OR over that empty
list, is false on every call state. -/
theorem all_disabled_never_retries (sec : Option IntOrSeq)
    (ne nt : Option (List ExcCls)) (rs : RetryCallState) :
    retry_http_errors.strategies ⟨false, false, false, false, sec, ne, nt⟩
      = [] ∧
    retry_http_errors.retry ⟨false, false, false, false, sec, ne, nt⟩ none rs
      = false := by
  constructor <;>
    simp [retry_http_errors.strategies, retry_http_errors.retry, retry_any]

end RetryHttp
